import Mathlib

/-!
Verification development for `hypothesis_graph`'s archive synchronization
engine (`src/hypothesis_graph/utils/ftp_update_job.py`).

The Python module is embedded shallowly: each Python function becomes a Lean
function over explicit state.  The SQLite ledger becomes a `DB` value holding
the three tables as lists of rows; the sqlite named-parameter binding and the
`UNIQUE` / `NOT NULL` constraints are modelled explicitly.  Remote I/O
(`ftplib` transfers, `time.strftime`, the md5 of the written bytes) is
abstracted into an oracle argument `fetch` supplied to the orchestrator; the
local write path `os.path.join(os.path.abspath(output_dir), filename)` is
modelled as string concatenation with a separator.  Python exceptions become
an `Except PyError` result.
-/

namespace HypothesisGraph

/-- The Python exceptions the module can raise.  `valueError` arises from
tuple-unpacking a `split` result, `keyError` from a missing dict key,
`typeError` from indexing a list with a string, `programmingError` from an
SQL statement with a missing named-parameter binding, `integrityError` from a
violated `UNIQUE` or `NOT NULL` constraint, and `transferError` stands for
the ftplib/IO errors a file transfer can raise. -/
inductive PyError where
  | valueError : PyError
  | keyError : String → PyError
  | typeError : PyError
  | programmingError : String → PyError
  | integrityError : PyError
  | transferError : PyError
deriving DecidableEq, Repr

/-- A value held in one of the loosely-typed Python dicts that the module
passes between its steps, and stored into SQLite columns: a string, an
integer, or `None`/`NULL`. -/
inductive Value where
  | s : String → Value
  | i : Int → Value
  | null : Value
deriving DecidableEq, Repr

/-- A Python dict with string keys, as an association list.  An update
prepends, and lookup takes the first hit, which matches Python's
overwrite-on-assignment observably. -/
abbrev Dict := List (String × Value)

/-- Dict lookup: first binding of the key wins (updates prepend). -/
def dictGet : Dict → String → Option Value
  | [], _ => none
  | (k, v) :: rest, key => if k = key then some v else dictGet rest key

/-- Dict assignment `d[k] = v` / `d.update(k=v)`: the new binding shadows any
older one. -/
def dictSet (d : Dict) (k : String) (v : Value) : Dict :=
  (k, v) :: d

/-- `FTPFileParams = namedtuple('FTPFileParams', 'modification_date size
unique_file_id filename')`.  All fields are the raw strings taken from the
MLSD listing line. -/
structure FTPFileParams where
  modification_date : String
  size : String
  unique_file_id : String
  filename : String
deriving DecidableEq, Repr

/-- The characters Python's `str.split()` treats as whitespace. -/
def isPySpace (c : Char) : Bool :=
  c = ' ' || c = '\t' || c = '\n' || c = '\r' || c = '\x0b' || c = '\x0c'

/-- Helper for `pySplitWs`: walk the characters keeping the (reversed)
current token, emitting a token at each whitespace run. -/
def pySplitWsAux : List Char → List Char → List (List Char)
  | cur, [] => if cur = [] then [] else [cur.reverse]
  | cur, c :: cs =>
    if isPySpace c then
      if cur = [] then pySplitWsAux [] cs
      else cur.reverse :: pySplitWsAux [] cs
    else pySplitWsAux (c :: cur) cs

/-- Python's `str.split()` with no argument: split on runs of whitespace,
ignoring leading and trailing whitespace. -/
def pySplitWs (s : String) : List String :=
  (pySplitWsAux [] s.toList).map fun cs => String.mk cs

/-- Helper for `pySplitChar`: split a character list at every occurrence of
the separator, keeping empty pieces. -/
def splitOnCharAux (sep : Char) : List Char → List (List Char)
  | [] => [[]]
  | c :: cs =>
    let rest := splitOnCharAux sep cs
    if c = sep then [] :: rest
    else
      match rest with
      | r :: rs => (c :: r) :: rs
      | [] => [[c]]

/-- Python's `str.split(sep)` for a one-character separator: split at every
occurrence, keeping empty pieces (so `''.split('=') == ['']`). -/
def pySplitChar (s : String) (sep : Char) : List String :=
  (splitOnCharAux sep s.toList).map fun cs => String.mk cs

/-- Python's `str.endswith(suffix)`. -/
def pyEndsWith (s suffix : String) : Bool :=
  suffix.toList.isSuffixOf s.toList

/-- The `for param in metadata_string.split(';')` loop body of `parse_mlsd`:
empty params are skipped (`if not param: continue`), and `k, v =
param.split('=')` raises `ValueError` unless the split yields exactly two
pieces. -/
def parseParams : List String → Except PyError (List (String × String))
  | [] => Except.ok []
  | p :: rest =>
    if p = "" then parseParams rest
    else
      match pySplitChar p '=' with
      | [k, v] => (parseParams rest).map fun tail => (k, v) :: tail
      | _ => Except.error PyError.valueError

/-- Lookup in the `metadata` dict built by `parse_mlsd`: assignments in
iteration order, so the last binding of a key wins. -/
def lastLookup : List (String × String) → String → Option String
  | [], _ => none
  | (k', v) :: rest, k =>
    match lastLookup rest k with
    | some r => some r
    | none => if k' = k then some v else none

/-- `metadata[k]`, raising `KeyError` when the key is absent. -/
def metaGet (d : List (String × String)) (k : String) : Except PyError String :=
  match lastLookup d k with
  | some v => Except.ok v
  | none => Except.error (PyError.keyError k)

/-- `parse_mlsd(line)`: split the line on whitespace into metadata and
filename (`ValueError` unless exactly two pieces result), split the metadata
on `;` then `=` into a dict, return `None` for entries whose `type` is not
`file`, and otherwise build the `FTPFileParams` from the `modify`, `size` and
`unique` keys. -/
def parse_mlsd (line : String) : Except PyError (Option FTPFileParams) := do
  match pySplitWs line with
  | [metadata_string, filename] => do
    let metadata ← parseParams (pySplitChar metadata_string ';')
    let ty ← metaGet metadata "type"
    if ty ≠ "file" then
      return none
    let modify ← metaGet metadata "modify"
    let size ← metaGet metadata "size"
    let unique ← metaGet metadata "unique"
    return some ⟨modify, size, unique, filename⟩
  | _ => Except.error PyError.valueError

/-- `re.match` semantics for the two default `skip_patterns` of
`get_file_listing`, `r'stats\.html$'` and `r'\.dat$'`: `match` anchors the
pattern at the start of the filename and `$` requires its end (also accepting
one trailing newline, which cannot occur here because filenames come from
`line.split()`), so a filename matches exactly when it is the literal pattern
text. -/
def matches_default_skip_pattern (filename : String) : Bool :=
  filename = "stats.html" || filename = ".dat"

/-- `get_file_listing(connection, server_dir)`: the generator over the MLSD
response lines.  The result pairs the descriptors actually yielded with the
error, if any, that iteration raises: a line on which `parse_mlsd` raises
ends the enumeration there (the source has no handler around
`parse_mlsd`), and lines after it are never reached.  The source's

  `for p in skip_patterns: if p.match(listing.filename) is not None: continue`

loop advances only that inner loop: its `continue` never skips the
following `yield listing`, so every parsed file descriptor is yielded no
matter which skip pattern matches it. -/
def get_file_listing : List String → List FTPFileParams × Option PyError
  | [] => ([], none)
  | line :: rest =>
    match parse_mlsd line with
    | Except.error e => ([], some e)
    | Except.ok none => get_file_listing rest
    | Except.ok (some listing) =>
      let tail := get_file_listing rest
      (listing :: tail.1, tail.2)

/-- A row of one of the three SQLite tables, kept as the list of
(column, bound value) pairs the `INSERT` produced. -/
abbrev Row := List (String × Value)

/-- The state of the download ledger created by `DOWNLOADED_FILES_SCHEMA`:
the three tables `nlm_archives`, `md5_checksums` and `archive_notes`.  The
`id INTEGER PRIMARY KEY` rowid column is implicit in the list position. -/
structure DB where
  nlm_archives : List Row
  md5_checksums : List Row
  archive_notes : List Row
deriving DecidableEq, Repr

/-- The (column, named parameter) pairs of `NEW_ARCHIVE_SQL`.  Note the SQL
requires a `:download_location` binding for the `download_location`
column. -/
def NEW_ARCHIVE_SQL_columns : List (String × String) :=
  [("size", "size"), ("record_name", "referenced_record"),
   ("filename", "filename"), ("unique_file_id", "unique_file_id"),
   ("modification_date", "modification_date"), ("observed_md5", "observed_md5"),
   ("md5_verified", "md5_verified"), ("download_date", "download_date"),
   ("download_location", "download_location"),
   ("transferred_for_output", "transferred_for_output"),
   ("downloaded_by_application", "downloaded_by_application")]

/-- The (column, named parameter) pairs of `NEW_HASH_SQL`. -/
def NEW_HASH_SQL_columns : List (String × String) :=
  [("referenced_record", "referenced_record"),
   ("unique_file_id", "unique_file_id"), ("md5_value", "md5_value"),
   ("download_date", "download_date"), ("filename", "filename"),
   ("checksum_file_deleted", "checksum_file_deleted")]

/-- The (column, named parameter) pairs of `NEW_NOTE_SQL`. -/
def NEW_NOTE_SQL_columns : List (String × String) :=
  [("filename", "filename"), ("referenced_record", "referenced_record"),
   ("unique_file_id", "unique_file_id"), ("download_date", "download_date")]

/-- The `NOT NULL` columns of `nlm_archives` (every column but the rowid). -/
def nlm_archives_not_null : List String :=
  ["size", "record_name", "filename", "unique_file_id", "modification_date",
   "observed_md5", "md5_verified", "download_date", "download_location",
   "transferred_for_output", "downloaded_by_application"]

/-- The `NOT NULL` columns of `md5_checksums`. -/
def md5_checksums_not_null : List String :=
  ["referenced_record", "unique_file_id", "md5_value", "download_date",
   "filename", "checksum_file_deleted"]

/-- The `NOT NULL` columns of `archive_notes`; `referenced_record` is
nullable there. -/
def archive_notes_not_null : List String :=
  ["filename", "unique_file_id", "download_date"]

/-- sqlite named-parameter binding of one dict against one `INSERT`: each
named parameter of the statement is looked up in the dict, and a missing key
raises `ProgrammingError` naming that parameter.  Extra dict keys are
ignored. -/
def bindRow (cols : List (String × String)) (d : Dict) : Except PyError Row :=
  match cols with
  | [] => Except.ok []
  | (c, p) :: rest =>
    match dictGet d p with
    | none => Except.error (PyError.programmingError p)
    | some v => (bindRow rest d).map fun tail => (c, v) :: tail

/-- One `INSERT` of an already-bound row: the `NOT NULL` constraints and the
`UNIQUE` constraint on `unique_file_id` both raise `IntegrityError`; an
accepted row is appended to the table.  All three tables declare
`unique_file_id TEXT NOT NULL UNIQUE`, so the `UNIQUE` comparison only ever
decides between non-null values (a null one is rejected by `NOT NULL`
first). -/
def insertRow (notNull : List String) (table : List Row) (row : Row) :
    Except PyError (List Row) :=
  if notNull.any fun c => decide (dictGet row c = some Value.null) then
    Except.error PyError.integrityError
  else if table.any fun r =>
      decide (dictGet r "unique_file_id" = dictGet row "unique_file_id") then
    Except.error PyError.integrityError
  else
    Except.ok (table ++ [row])

/-- `db_con.executemany(sql, dicts)`: bind and insert the dicts one at a
time; the first failure raises and the statement for the remaining dicts
never executes.  Because `record_downloads` only commits after all three
`executemany` calls succeed, a raised error leaves the durable database
unchanged, which the enclosing `Except` models. -/
def executemany (cols : List (String × String)) (notNull : List String)
    (table : List Row) : List Dict → Except PyError (List Row)
  | [] => Except.ok table
  | d :: rest => do
    let row ← bindRow cols d
    let table' ← insertRow notNull table row
    executemany cols notNull table' rest

/-- `MEDLINE_ARCHIVE_PATTERN = re.compile('medline\d{2}n\d{4}')` as the list
of single-character tests the regex performs: the literal `medline`, two
digits, the literal `n`, four digits. -/
def MEDLINE_ARCHIVE_PATTERN : List (Char → Bool) :=
  [fun c => c = 'm', fun c => c = 'e', fun c => c = 'd', fun c => c = 'l',
   fun c => c = 'i', fun c => c = 'n', fun c => c = 'e',
   Char.isDigit, Char.isDigit, fun c => c = 'n',
   Char.isDigit, Char.isDigit, Char.isDigit, Char.isDigit]

/-- `re.match` of a sequence of single-character tests against the start of
a string: consume one character per test and return the matched prefix, or
`none` when a test fails or the string ends early. -/
def reMatchStart : List (Char → Bool) → List Char → Option (List Char)
  | [], _ => some []
  | _ :: _, [] => none
  | p :: ps, c :: cs =>
    if p c then (reMatchStart ps cs).map (c :: ·) else none

/-- `MEDLINE_ARCHIVE_PATTERN.match(filename)` followed by `.group(0)`:
`re.match` anchors the pattern at the start of the filename, and with no
anchor at its end the matched token is a prefix of the filename. -/
def medline_archive_match (filename : String) : Option String :=
  (reMatchStart MEDLINE_ARCHIVE_PATTERN filename.toList).map
    fun cs => String.mk cs

/-- The `referenced_record` value `record_downloads` assigns to a download
dict: the matched group when `MEDLINE_ARCHIVE_PATTERN` matches the filename,
`None` otherwise. -/
def referenced_record_value (filename : String) : Value :=
  match medline_archive_match filename with
  | some g => Value.s g
  | none => Value.null

/-- `download['referenced_record'] = ...` from the classification loop of
`record_downloads`. -/
def with_referenced_record (d : Dict) (filename : String) : Dict :=
  dictSet d "referenced_record" (referenced_record_value filename)

/-- `download.update(md5_verified=0, transferred_for_output=0,
downloaded_by_application=0)` applied to an archive download dict. -/
def archive_updates (d : Dict) : Dict :=
  dictSet (dictSet (dictSet d "md5_verified" (Value.i 0))
    "transferred_for_output" (Value.i 0)) "downloaded_by_application" (Value.i 0)

/-- The classification loop of `record_downloads`: sort the download dicts
into archive, hash and note lists by filename suffix, assigning
`referenced_record` to each.  A missing or non-string `filename` raises.
The hash branch executes `open(downloads_list['output_path'])`, which
indexes the *list* `downloads_list` with a string and therefore raises
`TypeError` before reading any checksum, so classification aborts at the
first `.xml.gz.md5` item. -/
def classify_downloads : List Dict → Except PyError (List Dict × List Dict × List Dict)
  | [] => Except.ok ([], [], [])
  | download :: rest => do
    let fnv ← match dictGet download "filename" with
      | some v => Except.ok v
      | none => Except.error (PyError.keyError "filename")
    let filename ← match fnv with
      | Value.s f => Except.ok f
      | _ => Except.error PyError.typeError
    let download := with_referenced_record download filename
    if pyEndsWith filename ".xml.gz" then do
      let download := archive_updates download
      let (a, h, n) ← classify_downloads rest
      Except.ok (download :: a, h, n)
    else if pyEndsWith filename ".xml.gz.md5" then
      Except.error PyError.typeError
    else do
      let (a, h, n) ← classify_downloads rest
      Except.ok (a, h, download :: n)

/-- `record_downloads(downloads_list)`: classify every download dict, then
run the three `executemany` calls (archives first, then hashes, then notes)
and commit.  Any raised error propagates before `db_con.commit()`, so on
error the durable ledger is unchanged. -/
def record_downloads (db : DB) (downloads_list : List Dict) : Except PyError DB := do
  let (archives, hashes, notes) ← classify_downloads downloads_list
  let nlm ← executemany NEW_ARCHIVE_SQL_columns nlm_archives_not_null
    db.nlm_archives archives
  let md5s ← executemany NEW_HASH_SQL_columns md5_checksums_not_null
    db.md5_checksums hashes
  let anotes ← executemany NEW_NOTE_SQL_columns archive_notes_not_null
    db.archive_notes notes
  Except.ok ⟨nlm, md5s, anotes⟩

/-- The `unique_file_id` values stored in one table, the result of
`SELECT unique_file_id FROM <table>`. -/
def tableUniqueIds (rows : List Row) : List String :=
  rows.filterMap fun r =>
    match dictGet r "unique_file_id" with
    | some (Value.s v) => some v
    | _ => none

/-- The identifiers actually stored anywhere in the ledger: the union over
the three tables.  This is the set the specification's `known_identifiers()`
describes. -/
def allLedgerIds (db : DB) : List String :=
  tableUniqueIds db.nlm_archives ++ tableUniqueIds db.md5_checksums ++
    tableUniqueIds db.archive_notes

/-- `get_downloaded_file_unique_ids()`.  The source builds the set of ids
from `nlm_archives`, then evaluates

  `downloaded_files.union({... md5_checksums ...})`
  `downloaded_files.union({... archive_notes ...})`

but `set.union` returns a new set and neither result is ever assigned, so
the returned set holds the `nlm_archives` identifiers only. -/
def get_downloaded_file_unique_ids (db : DB) : List String :=
  let downloaded_files := tableUniqueIds db.nlm_archives
  downloaded_files

/-- The data a successful transfer of one file produces beyond the listing
fields: the `time.strftime('%Y%m%d%H%M%S')` wall-clock stamp and the md5
digest computed over the bytes written locally.  Both are environment
outputs, so the orchestrator receives them from its `fetch` oracle. -/
structure FetchResult where
  download_date : String
  observed_md5 : String
deriving DecidableEq, Repr

/-- `os.path.join(output_dir, filename)` on the already-absolute output
directory. -/
def pathJoin (dir filename : String) : String :=
  dir ++ "/" ++ filename

/-- The dict `retrieve_nlm_files` appends to `retrieved_files` for one
successful download: `file_info._asdict()` augmented with `download_date`,
`observed_md5` and `output_path`. -/
def mkDownloadDict (f : FTPFileParams) (r : FetchResult) (output_dir : String) : Dict :=
  [("modification_date", Value.s f.modification_date),
   ("size", Value.s f.size),
   ("unique_file_id", Value.s f.unique_file_id),
   ("filename", Value.s f.filename),
   ("download_date", Value.s r.download_date),
   ("observed_md5", Value.s r.observed_md5),
   ("output_path", Value.s (pathJoin output_dir f.filename))]

/-- Decidable equality for `Except` results, needed to evaluate run
outcomes on concrete inputs. -/
instance {ε α : Type} [DecidableEq ε] [DecidableEq α] : DecidableEq (Except ε α) := fun
  | Except.error e, Except.error e' =>
    if h : e = e' then isTrue (by rw [h]) else isFalse (by simp [h])
  | Except.error _, Except.ok _ => isFalse (by simp)
  | Except.ok _, Except.error _ => isFalse (by simp)
  | Except.ok a, Except.ok b =>
    if h : a = b then isTrue (by rw [h]) else isFalse (by simp [h])

/-- The observable outcome of one `retrieve_nlm_files` run: the successive
arguments passed to `record_downloads` (the source's `try/finally` produces
exactly one such call per run), the durable ledger after the run, and the
run's return value or raised error. -/
structure RunResult where
  commits : List (List Dict)
  db : DB
  outcome : Except PyError String
deriving DecidableEq, Repr

/-- The `for i, file_info in enumerate(get_file_listing(...))` loop of
`retrieve_nlm_files`.  Arguments: the transfer oracle, output directory,
`limit`, the `downloaded_files` set, the running `enumerate` index, the
accumulated `retrieved_files`, the descriptors the listing generator still
has to yield, and the error, if any, the generator raises after its last
descriptor.  The result is the final `retrieved_files` batch together with
the error, if any, that escapes the loop (a listing error raised while
pulling the next item, or a `TransferError` from the body).  Note the
`break` runs only after an item was pulled, and `i > limit` counts every
yielded descriptor, already-downloaded ones included. -/
def retrieve_loop (fetch : FTPFileParams → Except PyError FetchResult)
    (output_dir : String) (limit : Int) (downloaded : List String) :
    Nat → List Dict → List FTPFileParams → Option PyError →
      List Dict × Option PyError
  | _, retrieved, [], listing_err => (retrieved, listing_err)
  | i, retrieved, f :: rest, listing_err =>
    if limit > 0 ∧ (i : Int) > limit then
      (retrieved, none)
    else if f.unique_file_id ∈ downloaded then
      retrieve_loop fetch output_dir limit downloaded (i + 1) retrieved rest listing_err
    else
      match fetch f with
      | Except.error e => (retrieved, some e)
      | Except.ok r =>
        retrieve_loop fetch output_dir limit downloaded (i + 1)
          (retrieved ++ [mkDownloadDict f r output_dir]) rest listing_err

/-- `retrieve_nlm_files(connection, server_dir, output_dir, limit)`.  The
remote connection is abstracted: `connection.cwd(server_dir)` is pure remote
I/O, the MLSD response text arrives as `listing_lines`, and each
`RETR`-plus-local-write-plus-md5 is the `fetch` oracle.  The
`try ... finally: record_downloads(retrieved_files)` commits the accumulated
batch exactly once on every exit path; an error raised by that commit
replaces the in-flight error (Python `finally` semantics), and otherwise the
loop's error, if any, is re-raised after the commit.  On a fully normal run
the function returns the string `'Success'`. -/
def retrieve_nlm_files (db : DB) (listing_lines : List String)
    (fetch : FTPFileParams → Except PyError FetchResult)
    (output_dir : String) (limit : Int) : RunResult :=
  let downloaded_files := get_downloaded_file_unique_ids db
  let gl := get_file_listing listing_lines
  let res := retrieve_loop fetch output_dir limit downloaded_files 0 [] gl.1 gl.2
  match record_downloads db res.1 with
  | Except.error ce => ⟨[res.1], db, Except.error ce⟩
  | Except.ok db' =>
    match res.2 with
    | some e => ⟨[res.1], db', Except.error e⟩
    | none => ⟨[res.1], db', Except.ok "Success"⟩

/-! ### Shared concrete fixtures -/

/-- The empty ledger, as `initialize_download_database_connection` creates it
against a fresh backing store. -/
def db0 : DB := ⟨[], [], []⟩

/-- A transfer oracle for which every retrieval succeeds with a fixed
timestamp and digest. -/
def fetchOk : FTPFileParams → Except PyError FetchResult :=
  fun _ => Except.ok ⟨"20140101000000", "d41d8cd98f00b204e9800998ecf8427e"⟩

/-- A well-formed MLSD line describing the NOTE file `note1.txt` with unique
id `U1`. -/
def noteLine1 : String :=
  "modify=20140101120000;size=5;type=file;unique=U1; note1.txt"

/-- Whether a whole string satisfies a sequence of single-character tests,
one per character.  `matchesAll pat g.toList = true` says `g` has exactly
the token shape described by `pat`. -/
def matchesAll : List (Char → Bool) → List Char → Bool
  | [], [] => true
  | p :: ps, c :: cs => p c && matchesAll ps cs
  | _, _ => false

/-- The record-group token shape as the specification words it: two
lowercase letters, two digits, the letter `n`, four digits
(`[a-z]{2}[0-9]{2}n[0-9]{4}`). -/
def SPEC_RECORD_GROUP_SHAPE : List (Char → Bool) :=
  [Char.isLower, Char.isLower, Char.isDigit, Char.isDigit, fun c => c = 'n',
   Char.isDigit, Char.isDigit, Char.isDigit, Char.isDigit]

/-- Four well-formed MLSD lines for NOTE files `a.txt` … `d.txt` with
distinct unique ids, in remote order. -/
def fourNoteLines : List String :=
  ["modify=1;size=1;type=file;unique=UA; a.txt",
   "modify=2;size=1;type=file;unique=UB; b.txt",
   "modify=3;size=1;type=file;unique=UC; c.txt",
   "modify=4;size=1;type=file;unique=UD; d.txt"]

/-- A ledger holding one archive row with unique id `X`, as a run that
successfully recorded an archive would leave it. -/
def dbWithArchiveX : DB :=
  ⟨[[("size", Value.s "10"), ("record_name", Value.s "medline14n0001"),
     ("filename", Value.s "medline14n0001.xml.gz"),
     ("unique_file_id", Value.s "X"),
     ("modification_date", Value.s "20140101"),
     ("observed_md5", Value.s "abc"), ("md5_verified", Value.i 0),
     ("download_date", Value.s "20140102"),
     ("download_location", Value.s "out/medline14n0001.xml.gz"),
     ("transferred_for_output", Value.i 0),
     ("downloaded_by_application", Value.i 0)]], [], []⟩

/-- A ledger holding one checksum row with unique id `X` and one note row
with unique id `Y`, and no archive rows. -/
def dbChecksumXNoteY : DB :=
  ⟨[],
   [[("referenced_record", Value.s "medline14n0001"),
     ("unique_file_id", Value.s "X"), ("md5_value", Value.s "abc"),
     ("download_date", Value.s "20140102"),
     ("filename", Value.s "medline14n0001.xml.gz.md5"),
     ("checksum_file_deleted", Value.i 0)]],
   [[("filename", Value.s "note1.txt"), ("referenced_record", Value.null),
     ("unique_file_id", Value.s "Y"),
     ("download_date", Value.s "20140102")]]⟩

/-! ### Theorems -/

/-- C3: the claim says `get_downloaded_file_unique_ids` returns the union of
the stored identifiers across all three tables.  In the source the two
`set.union` results are never assigned, so identifiers stored only in
`md5_checksums` or `archive_notes` are missing from the returned set: on a
ledger whose checksum table holds id `X` and whose note table holds id `Y`,
the function returns the empty set although both ids are stored. -/
theorem C3_known_ids_miss_checksum_and_note_ids :
    "X" ∈ allLedgerIds dbChecksumXNoteY ∧
    "Y" ∈ allLedgerIds dbChecksumXNoteY ∧
    get_downloaded_file_unique_ids dbChecksumXNoteY = [] := by
  refine ⟨by decide, by decide, rfl⟩

/-- C4: the claim says two consecutive unbounded runs against an unchanged
listing retrieve nothing on the second run.  After a first run that
downloads and commits the NOTE file `note1.txt` (id `U1`), the second run's
known-identifier set still misses `U1` (it is read from `nlm_archives`
only), so the second run retrieves the same file again — its single commit
carries one descriptor — and its commit then dies with `IntegrityError` on
the duplicate note insert. -/
theorem C4_second_unbounded_run_retrieves_again :
    (retrieve_nlm_files db0 [noteLine1] fetchOk "out" 0).outcome =
      Except.ok "Success" ∧
    (retrieve_nlm_files (retrieve_nlm_files db0 [noteLine1] fetchOk "out" 0).db
        [noteLine1] fetchOk "out" 0).commits.map List.length = [1] ∧
    (retrieve_nlm_files (retrieve_nlm_files db0 [noteLine1] fetchOk "out" 0).db
        [noteLine1] fetchOk "out" 0).outcome =
      Except.error PyError.integrityError := by
  refine ⟨rfl, rfl, rfl⟩

/-- C6: the claim (and the source's own docstring, "Only retrieve `limit`
files if limit is greater than 0") says a positive limit truncates the plan
to at most `limit` entries, so remote order [A,B,C,D] with limit 2 and an
empty ledger retrieves exactly [A,B].  The loop's guard `if limit > 0 and
i > limit: break` only fires once the index exceeds the limit, so indices
0, 1 and 2 are all processed: the run retrieves three files, a.txt, b.txt
and c.txt. -/
theorem C6_limit_two_retrieves_three_files :
    (retrieve_nlm_files db0 fourNoteLines fetchOk "out" 2).commits.map
        (fun b => b.map fun d => dictGet d "filename") =
      [[some (Value.s "a.txt"), some (Value.s "b.txt"),
        some (Value.s "c.txt")]] := by
  rfl

/-- C8: the claim (and the source's docstring for `skip_patterns`) says a
descriptor whose filename matches a configured skip pattern is excluded from
the listing output.  The filename `stats.html` matches the default pattern
`stats\.html$`, yet the enumeration still yields its descriptor, because the
`continue` in `for p in skip_patterns: ...` only advances that inner loop
and never reaches the `yield`. -/
theorem C8_skip_pattern_file_still_listed :
    matches_default_skip_pattern "stats.html" = true ∧
    (get_file_listing ["modify=1;size=1;type=file;unique=U9; stats.html"]).1 =
      [⟨"1", "1", "U9", "stats.html"⟩] := by
  refine ⟨rfl, rfl⟩

/-- C5 counterexample: the claim says inserting a descriptor whose unique
identifier already exists in the ledger, in any of the three record kinds,
raises `IntegrityError` and is never silently accepted.  With id `X` already
stored in `nlm_archives`, recording a NOTE descriptor with the same id `X`
succeeds and silently inserts a second row carrying `X`: the `UNIQUE`
constraints are per table, so cross-kind duplicates are not detected. -/
theorem C5_counterexample_cross_kind_duplicate_accepted :
    "X" ∈ allLedgerIds dbWithArchiveX ∧
    record_downloads dbWithArchiveX
        [mkDownloadDict ⟨"20140101", "10", "X", "dup-note.txt"⟩
          ⟨"20140103", "def"⟩ "out"] =
      Except.ok ⟨dbWithArchiveX.nlm_archives, [],
        [[("filename", Value.s "dup-note.txt"),
          ("referenced_record", Value.null),
          ("unique_file_id", Value.s "X"),
          ("download_date", Value.s "20140103")]]⟩ := by
  refine ⟨by decide, rfl⟩

/-- C7 counterexample: the claim says the enclosing enumeration catches the
format error of a malformed line, skips that line, and keeps yielding
descriptors for the remaining lines.  `get_file_listing` has no handler
around `parse_mlsd`: on a listing whose second line is malformed, the
enumeration yields only the first descriptor and then raises `ValueError`;
the third line, although it parses fine on its own, is never yielded. -/
theorem C7_counterexample_malformed_line_aborts_listing :
    parse_mlsd "modify=3;size=1;type=file;unique=UC; c.txt" =
      Except.ok (some ⟨"3", "1", "UC", "c.txt"⟩) ∧
    get_file_listing
        ["modify=1;size=1;type=file;unique=UA; a.txt", "garbage-line",
         "modify=3;size=1;type=file;unique=UC; c.txt"] =
      ([⟨"1", "1", "UA", "a.txt"⟩], some PyError.valueError) := by
  refine ⟨rfl, rfl⟩

/-- C9 counterexample: the claim says record-group extraction matches the
token shape `[a-z]{2}[0-9]{2}n[0-9]{4}` as a filename prefix, and that any
filename beginning with such a token yields that token as its record group.
The filename `ab12n3456.txt` begins with the token `ab12n3456`, which has
exactly the claimed shape, yet `MEDLINE_ARCHIVE_PATTERN` — the literal
`medline` followed by two digits, `n` and four digits — does not match it,
so the extracted record group is absent. -/
theorem C9_counterexample_spec_shape_prefix_yields_no_group :
    matchesAll SPEC_RECORD_GROUP_SHAPE (String.toList "ab12n3456") = true ∧
    medline_archive_match "ab12n3456.txt" = none ∧
    referenced_record_value "ab12n3456.txt" = Value.null := by
  refine ⟨rfl, rfl, rfl⟩

/-- C10 counterexample: the claim says a run that completes without raising
returns the list of committed descriptors for that run.  The source ends
with `return 'Success'`: a run that commits nothing and a run that commits
one descriptor both return the same constant string, so the return value is
not the committed list. -/
theorem C10_counterexample_return_value_is_constant :
    (retrieve_nlm_files db0 [] fetchOk "out" 0).outcome = Except.ok "Success" ∧
    (retrieve_nlm_files db0 [noteLine1] fetchOk "out" 0).outcome =
      Except.ok "Success" ∧
    (retrieve_nlm_files db0 [noteLine1] fetchOk "out" 0).commits ≠
      (retrieve_nlm_files db0 [] fetchOk "out" 0).commits := by
  refine ⟨rfl, rfl, by decide⟩

/-- C10 amended: a run of the orchestrator entry point that completes
without raising returns the constant string `'Success'`, not the list of
committed descriptors (which the caller can only observe through the
ledger). -/
theorem C10_amended_success_run_returns_constant
    (db : DB) (lines : List String)
    (fetch : FTPFileParams → Except PyError FetchResult)
    (out : String) (lim : Int) (v : String)
    (h : (retrieve_nlm_files db lines fetch out lim).outcome = Except.ok v) :
    v = "Success" := by
  simp only [retrieve_nlm_files] at h
  split at h
  · simp at h
  · split at h
    · simp at h
    · simp at h
      exact h.symm

/-- Witness for C10's amended theorem: the empty run completes without
raising and indeed returns `'Success'`. -/
theorem C10_amended_success_run_returns_constant_witness :
    ("Success" : String) = "Success" :=
  C10_amended_success_run_returns_constant db0 [] fetchOk "out" 0 "Success" rfl

/-- C7 amended: a listing line on which `parse_mlsd` raises ends the
enumeration: the descriptors of the preceding lines are yielded, the error
escapes `get_file_listing` (which has no handler), and the lines after the
malformed one are never reached. -/
theorem C7_amended_malformed_line_error_escapes
    (pre : List String) (ds : List FTPFileParams) (line : String)
    (rest : List String) (e : PyError)
    (hpre : get_file_listing pre = (ds, none))
    (hline : parse_mlsd line = Except.error e) :
    get_file_listing (pre ++ line :: rest) = (ds, some e) := by
  induction pre generalizing ds with
  | nil =>
    simp only [get_file_listing, Prod.mk.injEq] at hpre
    simp only [List.nil_append, get_file_listing, hline, ← hpre.1]
  | cons l pre ih =>
    simp only [get_file_listing] at hpre
    split at hpre
    · simp at hpre
    · rename_i heq
      rw [List.cons_append]
      simp only [get_file_listing, heq]
      exact ih _ hpre
    · rename_i d heq
      obtain ⟨h1, h2⟩ := Prod.mk.injEq .. ▸ hpre
      have hpre' : get_file_listing pre = ((get_file_listing pre).1, none) := by
        rw [← h2]
      rw [List.cons_append]
      simp only [get_file_listing, heq]
      rw [ih _ hpre', ← h1]

/-- Witness for C7's amended theorem: one good line, then a malformed line,
then another good line; the enumeration yields only the first descriptor and
raises `ValueError`. -/
theorem C7_amended_malformed_line_error_escapes_witness :
    get_file_listing
        (["modify=1;size=1;type=file;unique=UA; a.txt"] ++ "garbage-line" ::
          ["modify=3;size=1;type=file;unique=UC; c.txt"]) =
      ([⟨"1", "1", "UA", "a.txt"⟩], some PyError.valueError) :=
  C7_amended_malformed_line_error_escapes
    ["modify=1;size=1;type=file;unique=UA; a.txt"]
    [⟨"1", "1", "UA", "a.txt"⟩] "garbage-line"
    ["modify=3;size=1;type=file;unique=UC; c.txt"] PyError.valueError rfl rfl

/-- Characterization of the anchored matcher: it returns `some m` exactly
when `m` is a prefix of the input whose characters pass the tests one by
one. -/
theorem reMatchStart_eq_some (ps : List (Char → Bool)) :
    ∀ cs m : List Char, reMatchStart ps cs = some m ↔
      matchesAll ps m = true ∧ ∃ rest, cs = m ++ rest := by
  induction ps with
  | nil =>
    intro cs m
    constructor
    · intro h
      simp only [reMatchStart, Option.some.injEq] at h
      subst h
      exact ⟨rfl, cs, rfl⟩
    · rintro ⟨hm, rest, hcs⟩
      cases m with
      | nil => rfl
      | cons c m' => simp [matchesAll] at hm
  | cons p ps ih =>
    intro cs m
    cases cs with
    | nil =>
      simp only [reMatchStart]
      constructor
      · intro h
        exact absurd h (by simp)
      · rintro ⟨hm, rest, hcs⟩
        cases m with
        | nil => simp [matchesAll] at hm
        | cons c m' => simp at hcs
    | cons c cs' =>
      simp only [reMatchStart]
      by_cases hp : p c = true
      · simp only [hp, if_true, Option.map_eq_some']
        constructor
        · rintro ⟨m', hm', rfl⟩
          obtain ⟨hall, rest, rfl⟩ := (ih cs' m').mp hm'
          exact ⟨by simp [matchesAll, hp, hall], rest, rfl⟩
        · rintro ⟨hall, rest, hcs⟩
          cases m with
          | nil => simp [matchesAll] at hall
          | cons c0 m' =>
            obtain ⟨rfl, hcs'⟩ : c0 = c ∧ cs' = m' ++ rest := by
              injection hcs with ha hb
              exact ⟨ha.symm, hb⟩
            simp only [matchesAll, Bool.and_eq_true] at hall
            exact ⟨m', (ih cs' m').mpr ⟨hall.2, rest, hcs'⟩, rfl⟩
      · simp only [hp, if_false]
        constructor
        · intro h
          exact absurd h (by simp)
        · rintro ⟨hall, rest, hcs⟩
          cases m with
          | nil => simp [matchesAll] at hall
          | cons c0 m' =>
            obtain ⟨rfl, -⟩ : c0 = c ∧ cs' = m' ++ rest := by
              injection hcs with ha hb
              exact ⟨ha.symm, hb⟩
            simp [matchesAll, hp] at hall

/-- C9 amended: record-group extraction matches exactly the token shape the
*code's* pattern describes — the literal `medline`, two digits, the letter
`n`, four digits — as a prefix of the filename: `medline_archive_match`
returns `some g` exactly when `g` has that shape and is a prefix of the
filename, and returns `none` for every other filename (in particular for
filenames that merely begin with the specification's
`[a-z]{2}[0-9]{2}n[0-9]{4}` shape). -/
theorem C9_amended_record_group_is_literal_medline_prefix (f g : String) :
    medline_archive_match f = some g ↔
      matchesAll MEDLINE_ARCHIVE_PATTERN g.toList = true ∧
        ∃ rest, f.toList = g.toList ++ rest := by
  unfold medline_archive_match
  rw [Option.map_eq_some']
  constructor
  · rintro ⟨m, hm, rfl⟩
    obtain ⟨hall, rest, hr⟩ := (reMatchStart_eq_some _ _ _).mp hm
    exact ⟨hall, rest, hr⟩
  · rintro ⟨hall, rest, hr⟩
    exact ⟨g.toList, (reMatchStart_eq_some _ _ _).mpr ⟨hall, rest, hr⟩, rfl⟩

/-- Reduction of an `Except` bind on a success value. -/
theorem except_bind_ok {ε α β : Type} (a : α) (f : α → Except ε β) :
    (Except.ok a : Except ε α) >>= f = f a := rfl

/-- Reduction of an `Except` bind on an error value. -/
theorem except_bind_error {ε α β : Type} (e : ε) (f : α → Except ε β) :
    (Except.error e : Except ε α) >>= f = Except.error e := rfl

/-- Reduction of an `Except` map on a success value. -/
theorem except_map_ok {ε α β : Type} (f : α → β) (a : α) :
    Except.map f (Except.ok a : Except ε α) = Except.ok (f a) := rfl

/-- Reduction of an `Except` map on an error value. -/
theorem except_map_error {ε α β : Type} (f : α → β) (e : ε) :
    Except.map f (Except.error e : Except ε α) = Except.error e := rfl

/-- Classification of a single download dict whose filename has neither the
archive nor the checksum suffix: it is filed as a NOTE with its
`referenced_record` assigned. -/
theorem classify_downloads_single_note (d : Dict) (fn : String)
    (hfn : dictGet d "filename" = some (Value.s fn))
    (ha : pyEndsWith fn ".xml.gz" = false)
    (hm : pyEndsWith fn ".xml.gz.md5" = false) :
    classify_downloads [d] =
      Except.ok ([], [], [with_referenced_record d fn]) := by
  unfold classify_downloads
  simp only [hfn, except_bind_ok, ha, hm, Bool.false_eq_true, if_false]
  rfl

/-- Binding a classified NOTE dict against `NEW_NOTE_SQL` succeeds and
produces the four-column row. -/
theorem bindRow_note_dict (d : Dict) (fn : String) (u dd : Value)
    (hfn : dictGet d "filename" = some (Value.s fn))
    (hu : dictGet d "unique_file_id" = some u)
    (hdd : dictGet d "download_date" = some dd) :
    bindRow NEW_NOTE_SQL_columns (with_referenced_record d fn) =
      Except.ok [("filename", Value.s fn),
        ("referenced_record", referenced_record_value fn),
        ("unique_file_id", u), ("download_date", dd)] := by
  simp only [NEW_NOTE_SQL_columns, bindRow, with_referenced_record, dictSet,
    dictGet, String.reduceEq, reduceIte, hfn, hu, hdd, except_map_ok]

/-- An insert whose `unique_file_id` value equals that of a row already in
the table raises `IntegrityError` (over whichever of the two constraint
checks fires first). -/
theorem insertRow_duplicate (notNull : List String) (table : List Row)
    (row r0 : Row) (hr0 : r0 ∈ table)
    (hid : dictGet r0 "unique_file_id" = dictGet row "unique_file_id") :
    insertRow notNull table row = Except.error PyError.integrityError := by
  unfold insertRow
  by_cases hnn : (notNull.any fun c => decide (dictGet row c = some Value.null)) = true
  · rw [if_pos hnn]
  · rw [if_neg hnn, if_pos]
    exact List.any_eq_true.mpr ⟨r0, hr0, decide_eq_true hid⟩

/-- C5 amended: the `UNIQUE` constraints are per table, so the
`IntegrityError` the claim describes is raised only for a duplicate within
the *same* record kind; since ARCHIVE batches die on the missing
`:download_location` binding and CHECKSUM batches on the
`downloads_list['output_path']` `TypeError`, the only insert that can reach
the constraint is a NOTE insert, and recording a NOTE descriptor whose
unique identifier already appears in `archive_notes` raises
`IntegrityError` and leaves the durable ledger unchanged. -/
theorem C5_amended_note_duplicate_raises_integrity_error
    (db : DB) (d : Dict) (fn : String) (u dd : Value) (r0 : Row)
    (hfn : dictGet d "filename" = some (Value.s fn))
    (ha : pyEndsWith fn ".xml.gz" = false)
    (hm : pyEndsWith fn ".xml.gz.md5" = false)
    (hu : dictGet d "unique_file_id" = some u)
    (hdd : dictGet d "download_date" = some dd)
    (hr0 : r0 ∈ db.archive_notes)
    (hr0u : dictGet r0 "unique_file_id" = some u) :
    record_downloads db [d] = Except.error PyError.integrityError := by
  unfold record_downloads
  rw [classify_downloads_single_note d fn hfn ha hm, except_bind_ok]
  show (executemany NEW_NOTE_SQL_columns archive_notes_not_null
      db.archive_notes [with_referenced_record d fn]).bind _ = _
  unfold executemany
  rw [bindRow_note_dict d fn u dd hfn hu hdd, except_bind_ok,
    insertRow_duplicate archive_notes_not_null db.archive_notes _ r0 hr0
      (by rw [hr0u]; rfl)]
  rfl

/-- Witness for C5's amended theorem: a second NOTE with the id `Y` already
stored in `archive_notes` is rejected with `IntegrityError`. -/
theorem C5_amended_note_duplicate_raises_integrity_error_witness :
    record_downloads dbChecksumXNoteY
        [mkDownloadDict ⟨"20140103", "7", "Y", "note1.txt"⟩
          ⟨"20140104", "ffff"⟩ "out"] =
      Except.error PyError.integrityError :=
  C5_amended_note_duplicate_raises_integrity_error dbChecksumXNoteY
    (mkDownloadDict ⟨"20140103", "7", "Y", "note1.txt"⟩ ⟨"20140104", "ffff"⟩ "out")
    "note1.txt" (Value.s "Y") (Value.s "20140104")
    [("filename", Value.s "note1.txt"), ("referenced_record", Value.null),
     ("unique_file_id", Value.s "Y"), ("download_date", Value.s "20140102")]
    rfl rfl rfl rfl rfl (by decide) rfl

/-- Binding a classified ARCHIVE dict — one built by the retrieval step and
augmented by the classification loop — against `NEW_ARCHIVE_SQL` fails:
the statement requires a `:download_location` binding, but the dict stores
the local path under `output_path`, so the lookup of `download_location`
raises `ProgrammingError`. -/
theorem bindRow_archive_dict (f : FTPFileParams) (r : FetchResult) (out : String) :
    bindRow NEW_ARCHIVE_SQL_columns
        (archive_updates (with_referenced_record (mkDownloadDict f r out) f.filename)) =
      Except.error (PyError.programmingError "download_location") := rfl

/-- Classification of a batch of retrieval-built dicts containing no
checksum file: the archive dicts and note dicts are filed in order, and the
hash list stays empty. -/
theorem classify_downloads_map_no_md5 (out : String) :
    ∀ items : List (FTPFileParams × FetchResult),
      (∀ i ∈ items, pyEndsWith i.1.filename ".xml.gz.md5" = false) →
      classify_downloads (items.map fun i => mkDownloadDict i.1 i.2 out) =
        Except.ok
          ((items.filter fun i => pyEndsWith i.1.filename ".xml.gz").map
            (fun i => archive_updates
              (with_referenced_record (mkDownloadDict i.1 i.2 out) i.1.filename)),
           [],
           (items.filter fun i => !pyEndsWith i.1.filename ".xml.gz").map
            (fun i => with_referenced_record (mkDownloadDict i.1 i.2 out) i.1.filename)) := by
  intro items h
  induction items with
  | nil => rfl
  | cons x xs ih =>
    have hx : pyEndsWith x.1.filename ".xml.gz.md5" = false :=
      h x (List.mem_cons_self x xs)
    have ihx := ih fun i hi => h i (List.mem_cons_of_mem x hi)
    simp only [List.map_cons, List.filter_cons]
    unfold classify_downloads
    rw [show dictGet (mkDownloadDict x.1 x.2 out) "filename" =
      some (Value.s x.1.filename) from rfl]
    by_cases hz : pyEndsWith x.1.filename ".xml.gz" = true
    · simp only [hz, hx, ihx, except_bind_ok, if_true, Bool.not_true,
        Bool.false_eq_true, if_false]
      rfl
    · rw [Bool.not_eq_true] at hz
      simp only [hz, hx, ihx, except_bind_ok, Bool.not_false, if_true,
        Bool.false_eq_true, if_false]
      rfl

/-- C2: a batch built by the retrieval step that contains an ARCHIVE item
(and no checksum item, which would die earlier with `TypeError`) makes
`record_downloads` raise the missing-binding `ProgrammingError` for
`:download_location`: the dicts carry the local path as `output_path` only,
so the first archive insert fails before any row is inserted and the error
propagates before `commit`, leaving the ledger without any archive row for
the batch. -/
theorem C2_archive_insert_missing_download_location
    (db : DB) (out : String) (items : List (FTPFileParams × FetchResult))
    (hmd5 : ∀ i ∈ items, pyEndsWith i.1.filename ".xml.gz.md5" = false)
    (harch : ∃ i ∈ items, pyEndsWith i.1.filename ".xml.gz" = true) :
    record_downloads db (items.map fun i => mkDownloadDict i.1 i.2 out) =
      Except.error (PyError.programmingError "download_location") := by
  unfold record_downloads
  rw [classify_downloads_map_no_md5 out items hmd5, except_bind_ok]
  obtain ⟨i0, hi0, hz0⟩ := harch
  cases hfil : items.filter fun i => pyEndsWith i.1.filename ".xml.gz" with
  | nil =>
    have : i0 ∈ items.filter fun i => pyEndsWith i.1.filename ".xml.gz" :=
      List.mem_filter.mpr ⟨hi0, hz0⟩
    rw [hfil] at this
    exact absurd this (List.not_mem_nil i0)
  | cons a as =>
    simp only [List.map_cons]
    show executemany NEW_ARCHIVE_SQL_columns nlm_archives_not_null
        db.nlm_archives (_ :: _) >>= _ = _
    unfold executemany
    rw [bindRow_archive_dict a.1 a.2 out]
    rfl

/-- Witness for C2: a batch holding the single archive
`medline14n0001.xml.gz` is rejected with the missing `:download_location`
binding. -/
theorem C2_archive_insert_missing_download_location_witness :
    record_downloads db0
        ([((⟨"20140101", "10", "U7", "medline14n0001.xml.gz"⟩ : FTPFileParams),
           (⟨"20140102", "abc"⟩ : FetchResult))].map
          fun i => mkDownloadDict i.1 i.2 "out") =
      Except.error (PyError.programmingError "download_location") :=
  C2_archive_insert_missing_download_location db0 "out"
    [(⟨"20140101", "10", "U7", "medline14n0001.xml.gz"⟩, ⟨"20140102", "abc"⟩)]
    (by decide) ⟨(⟨"20140101", "10", "U7", "medline14n0001.xml.gz"⟩,
      ⟨"20140102", "abc"⟩), List.mem_singleton.mpr rfl, by decide⟩

/-- The retrieval loop for an unbounded run over a three-item plan whose
second transfer fails: it accumulates exactly the first item's augmented
dict and exits abnormally with the second item's error; the third item is
never attempted. -/
theorem retrieve_loop_three_second_fails
    (fetch : FTPFileParams → Except PyError FetchResult) (out : String)
    (downloaded : List String) (f1 f2 f3 : FTPFileParams)
    (r1 : FetchResult) (e : PyError)
    (h1 : f1.unique_file_id ∉ downloaded)
    (h2 : f2.unique_file_id ∉ downloaded)
    (hf1 : fetch f1 = Except.ok r1)
    (hf2 : fetch f2 = Except.error e) :
    retrieve_loop fetch out 0 downloaded 0 [] [f1, f2, f3] none =
      ([mkDownloadDict f1 r1 out], some e) := by
  unfold retrieve_loop
  rw [if_neg (by simp), if_neg h1, hf1]
  show retrieve_loop fetch out 0 downloaded (0 + 1) ([] ++ [mkDownloadDict f1 r1 out])
      [f2, f3] none = _
  unfold retrieve_loop
  rw [if_neg (by simp), if_neg h2, hf2, List.nil_append]

/-- C1: when the retrieval loop of a three-item unbounded run exits
abnormally because the second transfer fails, and the ledger accepts the
accumulated batch, the run invokes `record_downloads` exactly once — with
exactly the batch retrieved before the exit, here the first item's augmented
descriptor — commits it, and only then re-raises the original transfer
error to the caller. -/
theorem C1_single_commit_of_retrieved_prefix_then_reraise
    (db : DB) (lines : List String) (out : String)
    (fetch : FTPFileParams → Except PyError FetchResult)
    (f1 f2 f3 : FTPFileParams) (r1 : FetchResult) (e : PyError) (db' : DB)
    (hlist : get_file_listing lines = ([f1, f2, f3], none))
    (h1 : f1.unique_file_id ∉ get_downloaded_file_unique_ids db)
    (h2 : f2.unique_file_id ∉ get_downloaded_file_unique_ids db)
    (hf1 : fetch f1 = Except.ok r1)
    (hf2 : fetch f2 = Except.error e)
    (hrec : record_downloads db [mkDownloadDict f1 r1 out] = Except.ok db') :
    retrieve_nlm_files db lines fetch out 0 =
      ⟨[[mkDownloadDict f1 r1 out]], db', Except.error e⟩ := by
  unfold retrieve_nlm_files
  simp only [hlist]
  rw [retrieve_loop_three_second_fails fetch out
    (get_downloaded_file_unique_ids db) f1 f2 f3 r1 e h1 h2 hf1 hf2]
  simp only [hrec]

/-- Witness for C1: three NOTE files are planned against an empty ledger,
the transfer of `b.txt` fails; the run commits exactly `a.txt`'s descriptor
and re-raises the transfer error. -/
theorem C1_single_commit_of_retrieved_prefix_then_reraise_witness :
    retrieve_nlm_files db0
        ["modify=1;size=1;type=file;unique=UA; a.txt",
         "modify=2;size=1;type=file;unique=UB; b.txt",
         "modify=3;size=1;type=file;unique=UC; c.txt"]
        (fun f => if f.filename = "b.txt" then Except.error PyError.transferError
          else Except.ok ⟨"20140101000000", "m"⟩) "out" 0 =
      ⟨[[mkDownloadDict ⟨"1", "1", "UA", "a.txt"⟩ ⟨"20140101000000", "m"⟩ "out"]],
       ⟨[], [],
        [[("filename", Value.s "a.txt"), ("referenced_record", Value.null),
          ("unique_file_id", Value.s "UA"),
          ("download_date", Value.s "20140101000000")]]⟩,
       Except.error PyError.transferError⟩ :=
  C1_single_commit_of_retrieved_prefix_then_reraise db0
    ["modify=1;size=1;type=file;unique=UA; a.txt",
     "modify=2;size=1;type=file;unique=UB; b.txt",
     "modify=3;size=1;type=file;unique=UC; c.txt"] "out"
    (fun f => if f.filename = "b.txt" then Except.error PyError.transferError
      else Except.ok ⟨"20140101000000", "m"⟩)
    ⟨"1", "1", "UA", "a.txt"⟩ ⟨"2", "1", "UB", "b.txt"⟩ ⟨"3", "1", "UC", "c.txt"⟩
    ⟨"20140101000000", "m"⟩ PyError.transferError
    ⟨[], [],
     [[("filename", Value.s "a.txt"), ("referenced_record", Value.null),
       ("unique_file_id", Value.s "UA"),
       ("download_date", Value.s "20140101000000")]]⟩
    rfl (by decide) (by decide) rfl rfl rfl

end HypothesisGraph
